import Mathlib

/-!
Verification of the dsda_doom_stats completion checker
(`dsda_doom_stats.py`).  The stats-file parser and the max/exception
evaluator are embedded shallowly: the two process-wide counters
(`TOTAL_MAXED_LVLS`, `TOTAL_DEAD_DEMONS`) become an explicit `Totals`
state threaded through the functions, console printing becomes an
explicit list of output lines, and a raised exception becomes an
`Option String` error component.  The loop additionally records the
list of level records it evaluated, which the Python code holds only
implicitly in its control flow.
-/

/-- Python `str.split()` with no argument, as used on each stats line:
split on runs of whitespace, dropping empty pieces.  Worker over the
character list with an accumulator for the current token. -/
def tokenizeAux : List Char → List Char → List String
  | [], [] => []
  | [], acc => [String.mk acc.reverse]
  | c :: cs, acc =>
    if c.isWhitespace then
      if acc = [] then tokenizeAux cs []
      else String.mk acc.reverse :: tokenizeAux cs []
    else tokenizeAux cs (c :: acc)

/-- Python `line.split()` (no separator argument). -/
def tokenize (s : String) : List String := tokenizeAux s.toList []

/-- Python `str.strip()`: remove leading and trailing whitespace, as
used on the version line. -/
def pyStrip (s : String) : String :=
  String.mk (((s.toList.dropWhile Char.isWhitespace).reverse.dropWhile
    Char.isWhitespace).reverse)

/-- Python `str.upper()` on the ASCII names appearing in WAD paths. -/
def pyUpper (s : String) : String := String.mk (s.toList.map Char.toUpper)

/-- Nonempty all-digit character list to its numeric value, `none`
otherwise. -/
def pyIntDigits (cs : List Char) : Option Nat :=
  if cs = [] then none
  else if cs.all Char.isDigit then
    some (cs.foldl (fun n c => 10 * n + (c.toNat - 48)) 0)
  else none

/-- Python `int(token)` on a whitespace-free token: an optional sign
followed by decimal digits; anything else raises `ValueError`, modelled
as `none`.  (Underscore separators and non-ASCII digits, which Python
would also accept, do not occur in stats files and are not modelled.) -/
def pyInt (s : String) : Option Int :=
  match s.toList with
  | '-' :: rest => (pyIntDigits rest).map (fun n => -(n : Int))
  | '+' :: rest => (pyIntDigits rest).map (fun n => (n : Int))
  | cs => (pyIntDigits cs).map (fun n => (n : Int))

/-- One parsed stats line together with its WAD identity, mirroring the
`DSDA_Stat_Line` named tuple (fields in source order). -/
structure DSDA_Stat_Line where
  iwad : String
  pwad : String
  lump_name : String
  ep_num : Int
  map_num : Int
  best_skill : Int
  best_time : Int
  best_max_time : Int
  best_nm_time : Int
  total_wins : Int
  total_kills : Int
  best_kills : Int
  best_items : Int
  best_secrets : Int
  max_kills : Int
  max_items : Int
  max_secrets : Int
  deriving DecidableEq, Repr

/-- Property `maxed`: best kills and best secrets both equal their
maxima. -/
def DSDA_Stat_Line.maxed (l : DSDA_Stat_Line) : Bool :=
  decide (l.best_kills = l.max_kills) && decide (l.best_secrets = l.max_secrets)

/-- Property `item_maxed`. -/
def DSDA_Stat_Line.item_maxed (l : DSDA_Stat_Line) : Bool :=
  decide (l.best_items = l.max_items)

/-- Property `triplet_id`: the `[iwad, pwad, lump_name]` identity list. -/
def DSDA_Stat_Line.triplet_id (l : DSDA_Stat_Line) : List String :=
  [l.iwad, l.pwad, l.lump_name]

/-- A well-formed threshold exception entry
`[iwad, pwad, lump, threshold]` from the kill/secret/item exception
lists. -/
structure ThresholdExc where
  iwad : String
  pwad : String
  lump : String
  threshold : Int
  deriving DecidableEq, Repr

/-- First three fields of a threshold entry, the `level[:3]` slice the
matching code compares against `triplet_id`. -/
def ThresholdExc.triplet (e : ThresholdExc) : List String :=
  [e.iwad, e.pwad, e.lump]

/-- The `Exceptions_Table` named tuple loaded from the TOML file. -/
structure Exceptions_Table where
  WAD_EXCEPTIONS : List (List String)
  KILL_EXCEPTIONS : List ThresholdExc
  SECRET_EXCEPTIONS : List ThresholdExc
  ITEM_EXCEPTIONS : List ThresholdExc
  PLAY_EXCEPTIONS : List (List String)
  deriving DecidableEq, Repr

/-- Method `max_exception`: one pass over `KILL_EXCEPTIONS` (a met
matching entry sets the flag), then one pass over `SECRET_EXCEPTIONS`
(a matching entry sets the flag when met and clears it when unmet). -/
def DSDA_Stat_Line.max_exception (l : DSDA_Stat_Line)
    (t : Exceptions_Table) : Bool :=
  let k := t.KILL_EXCEPTIONS.foldl
    (fun acc e =>
      if l.triplet_id = e.triplet then
        if e.threshold ≤ l.best_kills then true else acc
      else acc) false
  t.SECRET_EXCEPTIONS.foldl
    (fun acc e =>
      if l.triplet_id = e.triplet then
        if e.threshold ≤ l.best_secrets then true else false
      else acc) k

/-- Method `item_exception`: any matching met `ITEM_EXCEPTIONS` entry. -/
def DSDA_Stat_Line.item_exception (l : DSDA_Stat_Line)
    (t : Exceptions_Table) : Bool :=
  t.ITEM_EXCEPTIONS.foldl
    (fun acc e =>
      if l.triplet_id = e.triplet then
        if e.threshold ≤ l.best_items then true else acc
      else acc) false

/-- Module-level configuration: the printing constants together with
the two flags set from the command line in `__main__`. -/
structure Config where
  REQUIRE_ITEMS : Bool
  PRINT_MAX_WADS : Bool
  PRINT_MAX_LVLS : Bool
  PRINT_UNMAX_LVLS : Bool
  PRINT_UNPLAY_LVLS : Bool
  PRINT_ONCE_PER_WAD : Bool
  deriving DecidableEq, Repr

/-- The configuration the source actually runs with:
`PRINT_MAX_WADS = True`, `PRINT_MAX_LVLS = False`,
`PRINT_UNMAX_LVLS = True`, `PRINT_UNPLAY_LVLS = True`, and
`PRINT_ONCE_PER_WAD` / `REQUIRE_ITEMS` taken from the `-v` / `-i`
flags. -/
def source_config (verbose items : Bool) : Config :=
  { REQUIRE_ITEMS := items
    PRINT_MAX_WADS := true
    PRINT_MAX_LVLS := false
    PRINT_UNMAX_LVLS := true
    PRINT_UNPLAY_LVLS := true
    PRINT_ONCE_PER_WAD := verbose }

/-- The two process-wide counters. -/
structure Totals where
  TOTAL_MAXED_LVLS : Int
  TOTAL_DEAD_DEMONS : Int
  deriving DecidableEq, Repr

/-- Constant `PWAD_INDENT_STRING`. -/
def PWAD_INDENT_STRING : String := "    "

/-- Function `format_pwad`. -/
def format_pwad (iwad pwad : String) : String :=
  if pwad ≠ "" then pyUpper pwad ++ " (iwad " ++ pyUpper iwad ++ ")"
  else pyUpper iwad

/-- Function `format_num_maps`. -/
def format_num_maps (num_maps : Nat) : String :=
  let s := if num_maps = 1 then "" else "s"
  "(" ++ toString num_maps ++ " map" ++ s ++ ")"

/-- Leading indent: `PWAD_INDENT_STRING if pwad else ""`. -/
def indent_for (pwad : String) : String :=
  if pwad ≠ "" then PWAD_INDENT_STRING else ""

/-- Console line for an unfinished level. -/
def unplay_msg (l : DSDA_Stat_Line) : String :=
  indent_for l.pwad ++ "Level " ++ l.lump_name ++ " in " ++
    format_pwad l.iwad l.pwad ++ " isn\x27t beaten!"

/-- Console line for a level missing items. -/
def items_msg (l : DSDA_Stat_Line) : String :=
  indent_for l.pwad ++ "Level " ++ l.lump_name ++ " in " ++
    format_pwad l.iwad l.pwad ++ " is missing items!"

/-- Console line for an unmaxed level. -/
def unmax_msg (l : DSDA_Stat_Line) : String :=
  indent_for l.pwad ++ "Level " ++ l.lump_name ++ " in " ++
    format_pwad l.iwad l.pwad ++ " isn\x27t maxed!"

/-- Console line for a maxed level. -/
def maxed_msg (l : DSDA_Stat_Line) : String :=
  indent_for l.pwad ++ "Level " ++ l.lump_name ++ " in " ++
    format_pwad l.iwad l.pwad ++ " is maxed!"

/-- Console line celebrating a completely maxed WAD. -/
def wad_max_msg (iwad pwad : String) (num_maps : Nat) : String :=
  indent_for pwad ++ "*** Well done! " ++ format_pwad iwad pwad ++
    " is completely maxed! " ++ format_num_maps num_maps ++ " ***"

/-- Construction `DSDA_Stat_Line(iwad, pwad, *stat_line_raw)`: the raw
line is the lump name followed by the fourteen integer fields in file
order. -/
def mkLevel (iwad pwad lump : String) (ints : List Int) : DSDA_Stat_Line :=
  { iwad := iwad
    pwad := pwad
    lump_name := lump
    ep_num := ints.getD 0 0
    map_num := ints.getD 1 0
    best_skill := ints.getD 2 0
    best_time := ints.getD 3 0
    best_max_time := ints.getD 4 0
    best_nm_time := ints.getD 5 0
    total_wins := ints.getD 6 0
    total_kills := ints.getD 7 0
    best_kills := ints.getD 8 0
    best_items := ints.getD 9 0
    best_secrets := ints.getD 10 0
    max_kills := ints.getD 11 0
    max_items := ints.getD 12 0
    max_secrets := ints.getD 13 0 }

/-- Function `check_max`, with the global counters and the printed
lines made explicit.  Returns the boolean the Python function returns,
the updated counters, and the console lines printed.  The control flow
mirrors the source exactly, including the two quirks: with
`PRINT_UNPLAY_LVLS` unset an unfinished level falls through to the
item/max checks, and with `PRINT_UNMAX_LVLS` unset an unmaxed,
unexcepted level falls through to the maxed branch. -/
def check_max (cfg : Config) (iwad pwad lump : String) (ints : List Int)
    (exc : Exceptions_Table) (st : Totals) : Bool × Totals × List String :=
  let level := mkLevel iwad pwad lump ints
  let st1 : Totals :=
    { st with TOTAL_DEAD_DEMONS := st.TOTAL_DEAD_DEMONS + level.best_kills }
  if level.best_time = -1 ∧ level.triplet_id ∈ exc.PLAY_EXCEPTIONS then
    (true, st1, [])
  else if level.best_time = -1 ∧ cfg.PRINT_UNPLAY_LVLS = true then
    (false, st1, [unplay_msg level])
  else if cfg.REQUIRE_ITEMS = true ∧ level.item_maxed = false ∧
      level.item_exception exc = false then
    (false, st1, if cfg.PRINT_UNMAX_LVLS = true then [items_msg level] else [])
  else if level.maxed = false ∧ level.max_exception exc = false ∧
      cfg.PRINT_UNMAX_LVLS = true then
    (false, st1, [unmax_msg level])
  else
    let st2 : Totals :=
      { st1 with TOTAL_MAXED_LVLS := st1.TOTAL_MAXED_LVLS + 1 }
    (true, st2,
      if cfg.PRINT_MAX_LVLS = true ∧ cfg.PRINT_ONCE_PER_WAD = false then
        [maxed_msg level]
      else [])

/-- Error value for a token `int()` refuses, raised before the length
assertion. -/
def int_error_msg (line : String) : String :=
  "ValueError: invalid int token in line " ++ line

/-- Error value for the `assert len(stats) == 15` failure. -/
def assert_error_msg (line : String) : String :=
  "AssertionError: line does not have 15 fields: " ++ line

/-- Error value for the unsupported-version `RuntimeError`. -/
def unsupported_version_msg (iwad pwad ver : String) : String :=
  "Unsupported stats.txt version " ++ pyStrip ver ++ " found in " ++
    format_pwad iwad pwad

/-- One data line of the stats file: tokenize, convert every token but
the first with `int()` (a failure there raises before the assertion),
then assert exactly 15 tokens. -/
def parse_line (line : String) : Except String (String × List Int) :=
  let stats := tokenize line
  match (stats.drop 1).mapM pyInt with
  | none => .error (int_error_msg line)
  | some ints =>
    if stats.length = 15 then .ok (stats.headD "", ints)
    else .error (assert_error_msg line)

/-- State of the `for line in stat_list` loop after it stops: counters,
printed lines, level records evaluated (instrumentation the Python
holds implicitly), the `wad_max` flag, and the pending exception if a
line failed to parse. -/
structure LoopResult where
  totals : Totals
  out : List String
  levels : List DSDA_Stat_Line
  wad_max : Bool
  err : Option String
  deriving DecidableEq, Repr

/-- The `for line in stat_list` loop of `parse_stats`: each parsed line
goes through `check_max`; a failing level clears `wad_max` and, when
`PRINT_ONCE_PER_WAD` is set, breaks out of the loop; a line that fails
to parse raises, aborting the loop with the counters as they stand. -/
def run_lines (cfg : Config) (iwad pwad : String) (exc : Exceptions_Table) :
    List String → Totals → LoopResult
  | [], st => ⟨st, [], [], true, none⟩
  | line :: rest, st =>
    match parse_line line with
    | .error e => ⟨st, [], [], true, some e⟩
    | .ok (lump, ints) =>
      let cm := check_max cfg iwad pwad lump ints exc st
      let level := mkLevel iwad pwad lump ints
      if cm.1 = true then
        let r := run_lines cfg iwad pwad exc rest cm.2.1
        ⟨r.totals, cm.2.2 ++ r.out, level :: r.levels, r.wad_max, r.err⟩
      else if cfg.PRINT_ONCE_PER_WAD = true then
        ⟨cm.2.1, cm.2.2, [level], false, none⟩
      else
        let r := run_lines cfg iwad pwad exc rest cm.2.1
        ⟨r.totals, cm.2.2 ++ r.out, level :: r.levels, false, r.err⟩

/-- Result of processing one stats file. -/
structure RunResult where
  totals : Totals
  out : List String
  levels : List DSDA_Stat_Line
  err : Option String
  deriving DecidableEq, Repr

/-- Epilogue of `parse_stats` after the loop stopped: a pending parse
exception propagates with the counters as they stand; otherwise a WAD
whose `wad_max` flag survived gets the celebration line (with the
count of data lines) when `PRINT_MAX_WADS` is on. -/
def finish_stats (cfg : Config) (iwad pwad : String) (num_maps : Nat)
    (r : LoopResult) : RunResult :=
  match r.err with
  | some e => ⟨r.totals, r.out, r.levels, some e⟩
  | none =>
    if r.wad_max = true ∧ cfg.PRINT_MAX_WADS = true then
      ⟨r.totals, r.out ++ [wad_max_msg iwad pwad num_maps], r.levels, none⟩
    else ⟨r.totals, r.out, r.levels, none⟩

/-- Function `parse_stats` on the list of lines of one stats file: the
first line must strip to the version token `"1"` (otherwise the
`RuntimeError` is raised before any record is read), the second line is
discarded, and the remaining lines run through the loop. -/
def parse_stats (cfg : Config) (iwad pwad : String) (fileLines : List String)
    (exc : Exceptions_Table) (st : Totals) : RunResult :=
  if pyStrip (fileLines.headD "") ≠ "1" then
    ⟨st, [], [],
      some (unsupported_version_msg iwad pwad (fileLines.headD ""))⟩
  else
    finish_stats cfg iwad pwad (fileLines.drop 2).length
      (run_lines cfg iwad pwad exc (fileLines.drop 2) st)

/-- Epilogue of `parse_path`: in verbose mode a blank line is printed
after the WAD, skipped when the file raised (the exception
propagates). -/
def finish_path (cfg : Config) (r : RunResult) : RunResult :=
  match r.err with
  | some _ => r
  | none =>
    if cfg.PRINT_ONCE_PER_WAD = false then { r with out := r.out ++ [""] }
    else r

/-- Function `parse_path` after the path has been classified into
`(iwad, pwad)`: a WAD listed in `WAD_EXCEPTIONS` is ignored completely;
otherwise the stats file is parsed. -/
def parse_path (cfg : Config) (iwad pwad : String) (fileLines : List String)
    (exc : Exceptions_Table) (st : Totals) : RunResult :=
  if [iwad, pwad] ∈ exc.WAD_EXCEPTIONS then ⟨st, [], [], none⟩
  else finish_path cfg (parse_stats cfg iwad pwad fileLines exc st)

/-- Last entry of a threshold-exception list whose identity triplet
matches the level, mirroring the order in which the matching loops
overwrite their flag. -/
def lastMatch (l : DSDA_Stat_Line) (es : List ThresholdExc) :
    Option ThresholdExc :=
  es.foldl (fun acc e => if l.triplet_id = e.triplet then some e else acc) none

lemma lastMatch_foldl (l : DSDA_Stat_Line) :
    ∀ (es : List ThresholdExc) (init : Option ThresholdExc),
      es.foldl (fun acc e => if l.triplet_id = e.triplet then some e else acc)
          init =
        match lastMatch l es with
        | none => init
        | some e => some e
  | [], init => by simp [lastMatch]
  | e :: rest, init => by
    rw [List.foldl_cons, lastMatch, List.foldl_cons,
      lastMatch_foldl l rest, lastMatch_foldl l rest]
    cases hlm : lastMatch l rest <;> by_cases hm : l.triplet_id = e.triplet <;>
      simp [hm]

lemma lastMatch_cons (l : DSDA_Stat_Line) (e : ThresholdExc)
    (rest : List ThresholdExc) :
    lastMatch l (e :: rest) =
      match lastMatch l rest with
      | none => if l.triplet_id = e.triplet then some e else none
      | some x => some x := by
  rw [lastMatch, List.foldl_cons, lastMatch_foldl l rest]

lemma lastMatch_eq_none (l : DSDA_Stat_Line) :
    ∀ (es : List ThresholdExc),
      (∀ e ∈ es, l.triplet_id ≠ e.triplet) → lastMatch l es = none
  | [], _ => by simp [lastMatch]
  | e :: rest, h => by
    rw [lastMatch_cons, lastMatch_eq_none l rest (by
      intro x hx
      exact h x (List.mem_cons_of_mem e hx))]
    simp [h e (List.mem_cons_self e rest)]

lemma kill_foldl_char (l : DSDA_Stat_Line) :
    ∀ (es : List ThresholdExc) (init : Bool),
      es.foldl
          (fun acc e =>
            if l.triplet_id = e.triplet then
              if e.threshold ≤ l.best_kills then true else acc
            else acc) init =
        (init ||
          es.any (fun e =>
            decide (l.triplet_id = e.triplet) &&
              decide (e.threshold ≤ l.best_kills)))
  | [], init => by simp
  | e :: rest, init => by
    rw [List.foldl_cons, kill_foldl_char l rest]
    by_cases hm : l.triplet_id = e.triplet <;>
      by_cases ht : e.threshold ≤ l.best_kills <;>
        simp [hm, ht, Bool.or_assoc]

lemma secret_foldl_char (l : DSDA_Stat_Line) :
    ∀ (es : List ThresholdExc) (init : Bool),
      es.foldl
          (fun acc e =>
            if l.triplet_id = e.triplet then
              if e.threshold ≤ l.best_secrets then true else false
            else acc) init =
        match lastMatch l es with
        | none => init
        | some e => decide (e.threshold ≤ l.best_secrets)
  | [], init => by simp [lastMatch]
  | e :: rest, init => by
    rw [List.foldl_cons, secret_foldl_char l rest, lastMatch_cons]
    cases hlm : lastMatch l rest <;>
      by_cases hm : l.triplet_id = e.triplet <;>
        by_cases ht : e.threshold ≤ l.best_secrets <;>
          simp [hm, ht]

/-- Closed form of `max_exception`: the secret pass completely
overrides the kill pass whenever any secret entry matches, and then
only the last matching secret entry counts. -/
lemma max_exception_char (l : DSDA_Stat_Line) (t : Exceptions_Table) :
    l.max_exception t =
      match lastMatch l t.SECRET_EXCEPTIONS with
      | none =>
        t.KILL_EXCEPTIONS.any (fun e =>
          decide (l.triplet_id = e.triplet) &&
            decide (e.threshold ≤ l.best_kills))
      | some e => decide (e.threshold ≤ l.best_secrets) := by
  rw [DSDA_Stat_Line.max_exception]
  rw [secret_foldl_char, kill_foldl_char]
  cases lastMatch l t.SECRET_EXCEPTIONS <;> simp

/-- The first thing `check_max` does is add the level's `best_kills`
to `TOTAL_DEAD_DEMONS`; every branch returns those totals. -/
lemma check_max_dead (cfg : Config) (iwad pwad lump : String)
    (ints : List Int) (exc : Exceptions_Table) (st : Totals) :
    (check_max cfg iwad pwad lump ints exc st).2.1.TOTAL_DEAD_DEMONS =
      st.TOTAL_DEAD_DEMONS + (mkLevel iwad pwad lump ints).best_kills := by
  rw [check_max]
  split
  · rfl
  · split
    · rfl
    · split
      · rfl
      · split <;> rfl

/-- Accumulation law of the parse loop: the dead-demon counter grows by
exactly the sum of `best_kills` over the records the loop evaluated. -/
lemma run_lines_dead (cfg : Config) (iwad pwad : String)
    (exc : Exceptions_Table) :
    ∀ (lines : List String) (st : Totals),
      (run_lines cfg iwad pwad exc lines st).totals.TOTAL_DEAD_DEMONS =
        st.TOTAL_DEAD_DEMONS +
          ((run_lines cfg iwad pwad exc lines st).levels.map
            DSDA_Stat_Line.best_kills).sum
  | [], st => by simp [run_lines]
  | line :: rest, st => by
    rw [run_lines]
    cases hp : parse_line line with
    | error e => simp
    | ok v =>
      obtain ⟨lump, ints⟩ := v
      simp only
      split
      · have ih := run_lines_dead cfg iwad pwad exc rest
          (check_max cfg iwad pwad lump ints exc st).2.1
        simp only [List.map_cons, List.sum_cons]
        rw [ih, check_max_dead]
        ring
      · split
        · simp only [List.map_cons, List.map_nil, List.sum_cons,
            List.sum_nil]
          rw [check_max_dead]
          ring
        · have ih := run_lines_dead cfg iwad pwad exc rest
            (check_max cfg iwad pwad lump ints exc st).2.1
          simp only [List.map_cons, List.sum_cons]
          rw [ih, check_max_dead]
          ring

/-- `parse_stats` returns the loop's totals and evaluated records
unchanged (the version check happens before any record is read). -/
lemma parse_stats_dead (cfg : Config) (iwad pwad : String)
    (fileLines : List String) (exc : Exceptions_Table) (st : Totals) :
    (parse_stats cfg iwad pwad fileLines exc st).totals.TOTAL_DEAD_DEMONS =
      st.TOTAL_DEAD_DEMONS +
        ((parse_stats cfg iwad pwad fileLines exc st).levels.map
          DSDA_Stat_Line.best_kills).sum := by
  have hfin : ∀ (n : Nat) (r : LoopResult),
      (finish_stats cfg iwad pwad n r).totals = r.totals ∧
        (finish_stats cfg iwad pwad n r).levels = r.levels := by
    intro n r
    rw [finish_stats]
    split
    · exact ⟨rfl, rfl⟩
    · split <;> exact ⟨rfl, rfl⟩
  rw [parse_stats]
  split
  · simp
  · rw [(hfin _ _).1, (hfin _ _).2]
    exact run_lines_dead cfg iwad pwad exc (fileLines.drop 2) st

lemma finish_stats_totals (cfg : Config) (iwad pwad : String) (n : Nat)
    (r : LoopResult) : (finish_stats cfg iwad pwad n r).totals = r.totals := by
  rw [finish_stats]
  split
  · rfl
  · split <;> rfl

lemma finish_stats_levels (cfg : Config) (iwad pwad : String) (n : Nat)
    (r : LoopResult) : (finish_stats cfg iwad pwad n r).levels = r.levels := by
  rw [finish_stats]
  split
  · rfl
  · split <;> rfl

lemma finish_stats_err (cfg : Config) (iwad pwad : String) (n : Nat)
    (r : LoopResult) : (finish_stats cfg iwad pwad n r).err = r.err := by
  rw [finish_stats]
  split
  · rename_i x e heq
    simp [heq]
  · rename_i x heq
    split <;> simp [heq]

lemma finish_path_totals (cfg : Config) (r : RunResult) :
    (finish_path cfg r).totals = r.totals := by
  rw [finish_path]
  split
  · rfl
  · split <;> rfl

lemma finish_path_levels (cfg : Config) (r : RunResult) :
    (finish_path cfg r).levels = r.levels := by
  rw [finish_path]
  split
  · rfl
  · split <;> rfl

lemma finish_path_err (cfg : Config) (r : RunResult) :
    (finish_path cfg r).err = r.err := by
  rw [finish_path]
  split
  · rfl
  · split <;> rfl

/-- The empty exceptions table. -/
def empty_exc : Exceptions_Table := ⟨[], [], [], [], []⟩

/-- A two-level stats file: MAP01 fully maxed, MAP02 unplayed. -/
def c1_file : List String :=
  ["1", "80",
   "MAP01 1 1 4 1234 1100 -1 2 50 50 10 10 50 10 10",
   "MAP02 1 2 4 -1 -1 -1 0 30 30 5 2 40 8 4"]

/-- Exceptions table whose WAD exclusions do not cover doom2. -/
def c1_exc : Exceptions_Table := ⟨[["plutonia", ""]], [], [], [], []⟩

/-- C1: for a stats file whose WAD is not in `wad_exceptions`,
`TOTAL_DEAD_DEMONS` grows by exactly the sum of `best_kills` over the
records the parser evaluated — whatever each level's outcome and
whatever the once-per-WAD early-exit mode. -/
theorem c1_total_kills_sum (cfg : Config) (iwad pwad : String)
    (fileLines : List String) (exc : Exceptions_Table) (st : Totals)
    (h : [iwad, pwad] ∉ exc.WAD_EXCEPTIONS) :
    (parse_path cfg iwad pwad fileLines exc st).totals.TOTAL_DEAD_DEMONS =
      st.TOTAL_DEAD_DEMONS +
        ((parse_path cfg iwad pwad fileLines exc st).levels.map
          DSDA_Stat_Line.best_kills).sum := by
  rw [parse_path, if_neg h, finish_path_totals, finish_path_levels]
  exact parse_stats_dead cfg iwad pwad fileLines exc st

/-- Witness for C1 at a concrete file with one maxed and one unplayed
level. -/
theorem c1_total_kills_sum_witness :
    ([("doom2" : String), ""] ∉ c1_exc.WAD_EXCEPTIONS) ∧
    (parse_path (source_config true false) "doom2" "" c1_file c1_exc
        ⟨3, 7⟩).totals.TOTAL_DEAD_DEMONS =
      (Totals.mk 3 7).TOTAL_DEAD_DEMONS +
        ((parse_path (source_config true false) "doom2" "" c1_file c1_exc
          ⟨3, 7⟩).levels.map DSDA_Stat_Line.best_kills).sum :=
  ⟨by decide,
   c1_total_kills_sum (source_config true false) "doom2" "" c1_file c1_exc
     ⟨3, 7⟩ (by decide)⟩

/-- Raw integer fields of an unfinished (`best_time = -1`) but fully
maxed stats line. -/
def c2_ints : List Int := [1, 1, 4, -1, 1100, -1, 2, 50, 50, 10, 10, 50, 10, 10]

/-- Exceptions table with a play exception for doom2 MAP01. -/
def c2_exc : Exceptions_Table := ⟨[], [], [], [], [["doom2", "", "MAP01"]]⟩

/-- C2 counterexample: a `best_time = -1` level whose triplet is in
`play_exceptions` makes `check_max` return `True` (so it counts toward
the WAD being fully maxed), but `TOTAL_MAXED_LVLS` stays 0 — the early
`return True` skips the increment the claim asserts. -/
theorem c2_play_exception_counterexample :
    (mkLevel "doom2" "" "MAP01" c2_ints).best_time = -1 ∧
    (mkLevel "doom2" "" "MAP01" c2_ints).triplet_id ∈
      c2_exc.PLAY_EXCEPTIONS ∧
    (check_max (source_config true false) "doom2" "" "MAP01" c2_ints c2_exc
      ⟨0, 0⟩).1 = true ∧
    (check_max (source_config true false) "doom2" "" "MAP01" c2_ints c2_exc
      ⟨0, 0⟩).2.1.TOTAL_MAXED_LVLS = 0 := by decide

/-- C2 (amended): a `best_time = -1` level whose triplet is in
`play_exceptions` is classified as maxed for WAD purposes — `check_max`
returns `True` — but `TOTAL_MAXED_LVLS` is NOT incremented for it. -/
theorem c2_play_exception_amended (cfg : Config) (iwad pwad lump : String)
    (ints : List Int) (exc : Exceptions_Table) (st : Totals)
    (hb : (mkLevel iwad pwad lump ints).best_time = -1)
    (hp : (mkLevel iwad pwad lump ints).triplet_id ∈ exc.PLAY_EXCEPTIONS) :
    (check_max cfg iwad pwad lump ints exc st).1 = true ∧
    (check_max cfg iwad pwad lump ints exc st).2.1.TOTAL_MAXED_LVLS =
      st.TOTAL_MAXED_LVLS := by
  constructor <;> simp [check_max, hb, hp]

/-- Witness for the amended C2. -/
theorem c2_play_exception_amended_witness :
    (mkLevel "doom2" "" "MAP01" c2_ints).best_time = -1 ∧
    (mkLevel "doom2" "" "MAP01" c2_ints).triplet_id ∈
      c2_exc.PLAY_EXCEPTIONS ∧
    ((check_max (source_config true false) "doom2" "" "MAP01" c2_ints c2_exc
        ⟨1, 2⟩).1 = true ∧
     (check_max (source_config true false) "doom2" "" "MAP01" c2_ints c2_exc
        ⟨1, 2⟩).2.1.TOTAL_MAXED_LVLS = (Totals.mk 1 2).TOTAL_MAXED_LVLS) :=
  ⟨by decide, by decide,
   c2_play_exception_amended (source_config true false) "doom2" "" "MAP01"
     c2_ints c2_exc ⟨1, 2⟩ (by decide) (by decide)⟩

/-- C5: a stats file whose first line does not strip to the version
token `"1"` fails with the unsupported-version error before any record
is evaluated: the counters are untouched, no level is yielded, and
nothing is printed. -/
theorem c5_unsupported_version (cfg : Config) (iwad pwad : String)
    (fileLines : List String) (exc : Exceptions_Table) (st : Totals)
    (h : pyStrip (fileLines.headD "") ≠ "1") :
    parse_stats cfg iwad pwad fileLines exc st =
      ⟨st, [], [],
        some (unsupported_version_msg iwad pwad (fileLines.headD ""))⟩ := by
  rw [parse_stats, if_pos h]

/-- Version-2 stats file for the C5 witness. -/
def c5_file : List String :=
  ["2", "80", "MAP01 1 1 4 1234 1100 -1 2 50 50 10 10 50 10 10"]

/-- Witness for C5 at a version-2 file. -/
theorem c5_unsupported_version_witness :
    (pyStrip (c5_file.headD "") ≠ "1") ∧
    parse_stats (source_config true false) "doom2" "" c5_file empty_exc
        ⟨0, 0⟩ =
      ⟨⟨0, 0⟩, [], [],
        some (unsupported_version_msg "doom2" "" (c5_file.headD ""))⟩ :=
  ⟨by decide,
   c5_unsupported_version (source_config true false) "doom2" "" c5_file
     empty_exc ⟨0, 0⟩ (by decide)⟩

/-- C6: a stats file whose `(iwad, pwad)` pair is in `wad_exceptions`
is skipped entirely: counters untouched, no records, no output, no
error. -/
theorem c6_wad_exclusion (cfg : Config) (iwad pwad : String)
    (fileLines : List String) (exc : Exceptions_Table) (st : Totals)
    (h : [iwad, pwad] ∈ exc.WAD_EXCEPTIONS) :
    parse_path cfg iwad pwad fileLines exc st = ⟨st, [], [], none⟩ := by
  rw [parse_path, if_pos h]

/-- Exceptions table excluding the doom2 WAD itself. -/
def c6_exc : Exceptions_Table := ⟨[["doom2", ""]], [], [], [], []⟩

/-- Witness for C6. -/
theorem c6_wad_exclusion_witness :
    ([("doom2" : String), ""] ∈ c6_exc.WAD_EXCEPTIONS) ∧
    parse_path (source_config true false) "doom2" "" c1_file c6_exc ⟨5, 9⟩ =
      ⟨⟨5, 9⟩, [], [], none⟩ :=
  ⟨by decide,
   c6_wad_exclusion (source_config true false) "doom2" "" c1_file c6_exc
     ⟨5, 9⟩ (by decide)⟩

/-- C7: an unfinished level (`best_time = -1`) with no matching play
exception is Unplayed under the source's `PRINT_UNPLAY_LVLS = True`:
`check_max` returns `False`, `TOTAL_MAXED_LVLS` is unchanged, and its
`best_kills` are still added to `TOTAL_DEAD_DEMONS`. -/
theorem c7_unplayed_still_counts (cfg : Config) (iwad pwad lump : String)
    (ints : List Int) (exc : Exceptions_Table) (st : Totals)
    (hb : (mkLevel iwad pwad lump ints).best_time = -1)
    (hp : (mkLevel iwad pwad lump ints).triplet_id ∉ exc.PLAY_EXCEPTIONS)
    (hpr : cfg.PRINT_UNPLAY_LVLS = true) :
    (check_max cfg iwad pwad lump ints exc st).1 = false ∧
    (check_max cfg iwad pwad lump ints exc st).2.1.TOTAL_MAXED_LVLS =
      st.TOTAL_MAXED_LVLS ∧
    (check_max cfg iwad pwad lump ints exc st).2.1.TOTAL_DEAD_DEMONS =
      st.TOTAL_DEAD_DEMONS + (mkLevel iwad pwad lump ints).best_kills := by
  refine ⟨?_, ?_, ?_⟩ <;> simp [check_max, hb, hp, hpr]

/-- Witness for C7: the unfinished maxed-stats line of the spec
example, `best_kills = 50` still counted. -/
theorem c7_unplayed_still_counts_witness :
    (mkLevel "doom2" "" "MAP01" c2_ints).best_time = -1 ∧
    (mkLevel "doom2" "" "MAP01" c2_ints).triplet_id ∉
      empty_exc.PLAY_EXCEPTIONS ∧
    (source_config true false).PRINT_UNPLAY_LVLS = true ∧
    ((check_max (source_config true false) "doom2" "" "MAP01" c2_ints
        empty_exc ⟨0, 0⟩).1 = false ∧
     (check_max (source_config true false) "doom2" "" "MAP01" c2_ints
        empty_exc ⟨0, 0⟩).2.1.TOTAL_MAXED_LVLS =
       (Totals.mk 0 0).TOTAL_MAXED_LVLS ∧
     (check_max (source_config true false) "doom2" "" "MAP01" c2_ints
        empty_exc ⟨0, 0⟩).2.1.TOTAL_DEAD_DEMONS =
       (Totals.mk 0 0).TOTAL_DEAD_DEMONS +
         (mkLevel "doom2" "" "MAP01" c2_ints).best_kills) :=
  ⟨by decide, by decide, by decide,
   c7_unplayed_still_counts (source_config true false) "doom2" "" "MAP01"
     c2_ints empty_exc ⟨0, 0⟩ (by decide) (by decide) (by decide)⟩

/-- An unmaxed doom2 MAP01 record: 40 of 50 kills, 5 of 10 secrets. -/
def c3_level : DSDA_Stat_Line :=
  mkLevel "doom2" "" "MAP01" [1, 1, 4, 1234, 1100, -1, 2, 50, 40, 10, 5, 50, 10, 10]

/-- Table with a met kill exception and two matching secret exceptions
for MAP01: an unmet one (threshold 9) followed by a met one
(threshold 5). -/
def c3_exc : Exceptions_Table :=
  ⟨[], [⟨"doom2", "", "MAP01", 40⟩],
   [⟨"doom2", "", "MAP01", 9⟩, ⟨"doom2", "", "MAP01", 5⟩], [], []⟩

/-- C3 counterexample: a matching secret exception whose threshold
exceeds `best_secrets` exists, a met matching kill exception exists,
yet `max_exception` is `True`: a later matching met secret entry
overwrites the `False` the unmet entry forced, so the claim's
universal reading fails. -/
theorem c3_secret_conjunctive_counterexample :
    c3_level.maxed = false ∧
    (∃ e ∈ c3_exc.SECRET_EXCEPTIONS,
      c3_level.triplet_id = e.triplet ∧
        c3_level.best_secrets < e.threshold) ∧
    (∃ e ∈ c3_exc.KILL_EXCEPTIONS,
      c3_level.triplet_id = e.triplet ∧
        e.threshold ≤ c3_level.best_kills) ∧
    c3_level.max_exception c3_exc = true := by decide

/-- C3 (amended): when the LAST matching secret exception entry is
unmet, `max_exception` is `False` regardless of any met kill
exception — in particular whenever exactly one secret entry matches,
an unmet secret exception vetoes a met kill exception. -/
theorem c3_secret_conjunctive_amended (l : DSDA_Stat_Line)
    (t : Exceptions_Table) (e : ThresholdExc)
    (hm : l.maxed = false)
    (hlast : lastMatch l t.SECRET_EXCEPTIONS = some e)
    (hunmet : l.best_secrets < e.threshold) :
    l.max_exception t = false := by
  rw [max_exception_char, hlast]
  simp only [decide_eq_false_iff_not]
  omega

/-- Table with a met kill exception and a single unmet secret
exception for MAP01. -/
def c3w_exc : Exceptions_Table :=
  ⟨[], [⟨"doom2", "", "MAP01", 40⟩], [⟨"doom2", "", "MAP01", 9⟩], [], []⟩

/-- Witness for the amended C3. -/
theorem c3_secret_conjunctive_amended_witness :
    c3_level.maxed = false ∧
    lastMatch c3_level c3w_exc.SECRET_EXCEPTIONS =
      some ⟨"doom2", "", "MAP01", 9⟩ ∧
    c3_level.best_secrets < (9 : Int) ∧
    c3_level.max_exception c3w_exc = false :=
  ⟨by decide, by decide, by decide,
   c3_secret_conjunctive_amended c3_level c3w_exc ⟨"doom2", "", "MAP01", 9⟩
     (by decide) (by decide) (by decide)⟩

/-- C4: with no matching secret exception, `max_exception` is exactly
"some matching kill exception entry has `threshold ≤ best_kills`"; in
particular an entry with `threshold = best_kills` grants the
exception, and entries with `threshold = best_kills + 1` grant
nothing. -/
theorem c4_kill_threshold (l : DSDA_Stat_Line) (t : Exceptions_Table)
    (hm : l.maxed = false)
    (hs : ∀ e ∈ t.SECRET_EXCEPTIONS, l.triplet_id ≠ e.triplet) :
    l.max_exception t =
      t.KILL_EXCEPTIONS.any (fun e =>
        decide (l.triplet_id = e.triplet) &&
          decide (e.threshold ≤ l.best_kills)) ∧
    ((∃ e ∈ t.KILL_EXCEPTIONS,
        l.triplet_id = e.triplet ∧ e.threshold = l.best_kills) →
      l.max_exception t = true) ∧
    ((∀ e ∈ t.KILL_EXCEPTIONS,
        l.triplet_id = e.triplet → e.threshold = l.best_kills + 1) →
      l.max_exception t = false) := by
  have hnone := lastMatch_eq_none l t.SECRET_EXCEPTIONS hs
  have hchar : l.max_exception t =
      t.KILL_EXCEPTIONS.any (fun e =>
        decide (l.triplet_id = e.triplet) &&
          decide (e.threshold ≤ l.best_kills)) := by
    rw [max_exception_char, hnone]
  refine ⟨hchar, ?_, ?_⟩
  · rintro ⟨e, he, hte, hth⟩
    rw [hchar, List.any_eq_true]
    exact ⟨e, he, by simp [hte, hth]⟩
  · intro hall
    rw [hchar, List.any_eq_false]
    intro e he
    by_cases htr : l.triplet_id = e.triplet
    · have hth := hall e he htr
      simp [htr, hth]
    · simp [htr]

/-- Table with one kill exception at exactly `best_kills = 40` and no
secret exceptions. -/
def c4w_exc : Exceptions_Table :=
  ⟨[], [⟨"doom2", "", "MAP01", 40⟩], [], [], []⟩

/-- Witness for C4 at the boundary entry `threshold = best_kills`. -/
theorem c4_kill_threshold_witness :
    c3_level.maxed = false ∧
    (∀ e ∈ c4w_exc.SECRET_EXCEPTIONS, c3_level.triplet_id ≠ e.triplet) ∧
    (c3_level.max_exception c4w_exc =
      c4w_exc.KILL_EXCEPTIONS.any (fun e =>
        decide (c3_level.triplet_id = e.triplet) &&
          decide (e.threshold ≤ c3_level.best_kills)) ∧
    ((∃ e ∈ c4w_exc.KILL_EXCEPTIONS,
        c3_level.triplet_id = e.triplet ∧
          e.threshold = c3_level.best_kills) →
      c3_level.max_exception c4w_exc = true) ∧
    ((∀ e ∈ c4w_exc.KILL_EXCEPTIONS,
        c3_level.triplet_id = e.triplet →
          e.threshold = c3_level.best_kills + 1) →
      c3_level.max_exception c4w_exc = false)) :=
  ⟨by decide, by decide,
   c4_kill_threshold c3_level c4w_exc (by decide) (by decide)⟩

/-- C9: a stats file with a valid version header and no data lines
leaves `wad_max` set, so with WAD summaries enabled the celebration
line is printed reporting 0 maps, and nothing else happens: counters
untouched, no records, no error. -/
theorem c9_header_only_wad (cfg : Config) (iwad pwad : String)
    (fileLines : List String) (exc : Exceptions_Table) (st : Totals)
    (hw : cfg.PRINT_MAX_WADS = true)
    (hlen : fileLines.length ≤ 2)
    (hv : pyStrip (fileLines.headD "") = "1") :
    parse_stats cfg iwad pwad fileLines exc st =
      ⟨st, [wad_max_msg iwad pwad 0], [], none⟩ ∧
    format_num_maps 0 = "(0 maps)" := by
  have hd : fileLines.drop 2 = [] := List.drop_eq_nil_of_le hlen
  constructor
  · rw [parse_stats, if_neg (not_not_intro hv), hd]
    simp [run_lines, finish_stats, hw]
  · rfl

/-- Witness for C9 at a two-line file. -/
theorem c9_header_only_wad_witness :
    ((source_config true false).PRINT_MAX_WADS = true) ∧
    ((["1", "80"] : List String).length ≤ 2) ∧
    (pyStrip ((["1", "80"] : List String).headD "") = "1") ∧
    (parse_stats (source_config true false) "doom2" "" ["1", "80"]
        empty_exc ⟨0, 0⟩ =
      ⟨⟨0, 0⟩, [wad_max_msg "doom2" "" 0], [], none⟩ ∧
     format_num_maps 0 = "(0 maps)") :=
  ⟨by decide, by decide, by decide,
   c9_header_only_wad (source_config true false) "doom2" "" ["1", "80"]
     empty_exc ⟨0, 0⟩ (by decide) (by decide) (by decide)⟩

lemma tokenizeAux_ws : ∀ (cs : List Char),
    cs.all Char.isWhitespace = true → tokenizeAux cs [] = []
  | [], _ => rfl
  | c :: cs, h => by
    simp only [List.all_cons, Bool.and_eq_true] at h
    simp [tokenizeAux, h.1, tokenizeAux_ws cs h.2]

lemma tokenize_ws (s : String)
    (h : s.toList.all Char.isWhitespace = true) : tokenize s = [] := by
  rw [tokenize]
  exact tokenizeAux_ws s.toList h

lemma parse_line_ws (line : String)
    (h : line.toList.all Char.isWhitespace = true) :
    parse_line line = .error (assert_error_msg line) := by
  rw [parse_line, tokenize_ws line h]
  rfl

/-- When the last data line fails to parse, the loop either aborts
with an error or broke early: in no case does it evaluate one record
per data line. -/
lemma run_lines_last_bad (cfg : Config) (iwad pwad : String)
    (exc : Exceptions_Table) (line : String) (e : String)
    (hl : parse_line line = .error e) :
    ∀ (pre : List String) (st : Totals),
      (run_lines cfg iwad pwad exc (pre ++ [line]) st).err.isSome = true ∨
      (run_lines cfg iwad pwad exc (pre ++ [line]) st).levels.length <
        pre.length + 1
  | [], st => by
    simp [run_lines, hl]
  | l :: pre, st => by
    rw [List.cons_append, run_lines]
    cases hp : parse_line l with
    | error e2 => simp
    | ok v =>
      obtain ⟨lump, ints⟩ := v
      simp only
      split
      · rcases run_lines_last_bad cfg iwad pwad exc line e hl pre
            (check_max cfg iwad pwad lump ints exc st).2.1 with h | h
        · left
          simpa using h
        · right
          simp only [List.length_cons]
          omega
      · split
        · right
          simp
        · rcases run_lines_last_bad cfg iwad pwad exc line e hl pre
              (check_max cfg iwad pwad lump ints exc st).2.1 with h | h
          · left
            simpa using h
          · right
            simp only [List.length_cons]
            omega

/-- C10: a blank or whitespace-only line tokenizes to zero tokens and
fails the exactly-15-tokens assertion, raising; consequently a file
whose data lines end in such a line is never fully evaluated — either
the run aborts with the pending error or the early-exit break already
stopped the loop short of one record per data line. -/
theorem c10_blank_line_aborts (line : String) (cfg : Config)
    (iwad pwad v k : String) (pre : List String) (exc : Exceptions_Table)
    (st : Totals)
    (hws : line.toList.all Char.isWhitespace = true)
    (hv : pyStrip v = "1") :
    tokenize line = [] ∧
    parse_line line = .error (assert_error_msg line) ∧
    ((parse_stats cfg iwad pwad (v :: k :: (pre ++ [line])) exc
        st).err.isSome = true ∨
     (parse_stats cfg iwad pwad (v :: k :: (pre ++ [line])) exc
        st).levels.length < pre.length + 1) := by
  refine ⟨tokenize_ws line hws, parse_line_ws line hws, ?_⟩
  have hnv : ¬pyStrip ((v :: k :: (pre ++ [line])).headD "") ≠ "1" := by
    simp [hv]
  have hdrop : (v :: k :: (pre ++ [line])).drop 2 = pre ++ [line] := rfl
  rw [parse_stats, if_neg hnv, hdrop, finish_stats_err, finish_stats_levels]
  exact run_lines_last_bad cfg iwad pwad exc line (assert_error_msg line)
    (parse_line_ws line hws) pre st

/-- Witness for C10: a file ending in a whitespace-only line. -/
theorem c10_blank_line_aborts_witness :
    ((" " : String).toList.all Char.isWhitespace = true) ∧
    (pyStrip "1" = "1") ∧
    (tokenize " " = [] ∧
     parse_line " " = .error (assert_error_msg " ") ∧
     ((parse_stats (source_config true false) "doom2" "" ("1" :: "80" ::
         (["MAP01 1 1 4 1234 1100 -1 2 50 50 10 10 50 10 10"] ++ [" "]))
         empty_exc ⟨0, 0⟩).err.isSome = true ∨
      (parse_stats (source_config true false) "doom2" "" ("1" :: "80" ::
         (["MAP01 1 1 4 1234 1100 -1 2 50 50 10 10 50 10 10"] ++ [" "]))
         empty_exc ⟨0, 0⟩).levels.length <
        (["MAP01 1 1 4 1234 1100 -1 2 50 50 10 10 50 10 10"] :
          List String).length + 1)) :=
  ⟨by decide, by decide,
   c10_blank_line_aborts " " (source_config true false) "doom2" "" "1" "80"
     ["MAP01 1 1 4 1234 1100 -1 2 50 50 10 10 50 10 10"] empty_exc ⟨0, 0⟩
     (by decide) (by decide)⟩

/-- Integer fields of the maxed MAP01 line in the C8 file. -/
def c8_ints : List Int := [1, 1, 4, 1234, 1100, -1, 2, 50, 50, 10, 10, 50, 10, 10]

/-- A stats file whose first data line is a fully maxed level and whose
second data line does not parse. -/
def c8_file : List String :=
  ["1", "80",
   "MAP01 1 1 4 1234 1100 -1 2 50 50 10 10 50 10 10",
   "MAP02 bogus"]

/-- C8: evaluation is not atomic on a malformed line: the run aborts
with the pending error, but the preceding record's `best_kills` were
already added to `TOTAL_DEAD_DEMONS` and `TOTAL_MAXED_LVLS` was already
incremented for it. -/
theorem c8_partial_totals_on_malformed (cfg : Config) (st : Totals) :
    (parse_stats cfg "doom2" "" c8_file empty_exc st).err.isSome = true ∧
    (parse_stats cfg "doom2" "" c8_file empty_exc
        st).totals.TOTAL_DEAD_DEMONS = st.TOTAL_DEAD_DEMONS + 50 ∧
    (parse_stats cfg "doom2" "" c8_file empty_exc
        st).totals.TOTAL_MAXED_LVLS = st.TOTAL_MAXED_LVLS + 1 := by
  have h1 : parse_line "MAP01 1 1 4 1234 1100 -1 2 50 50 10 10 50 10 10" =
      .ok ("MAP01", c8_ints) := by rfl
  have h2 : parse_line "MAP02 bogus" =
      .error (int_error_msg "MAP02 bogus") := by rfl
  have hcm : ∀ (s : Totals),
      check_max cfg "doom2" "" "MAP01" c8_ints empty_exc s =
        (true, ⟨s.TOTAL_MAXED_LVLS + 1, s.TOTAL_DEAD_DEMONS + 50⟩,
          if cfg.PRINT_MAX_LVLS = true ∧ cfg.PRINT_ONCE_PER_WAD = false then
            [maxed_msg (mkLevel "doom2" "" "MAP01" c8_ints)]
          else []) := by
    intro s
    have e1 : (mkLevel "doom2" "" "MAP01" c8_ints).best_time = (1234 : Int) :=
      rfl
    have e2 : (mkLevel "doom2" "" "MAP01" c8_ints).item_maxed = true := rfl
    have e3 : (mkLevel "doom2" "" "MAP01" c8_ints).maxed = true := rfl
    have e4 : (mkLevel "doom2" "" "MAP01" c8_ints).best_kills = (50 : Int) :=
      rfl
    simp [check_max, e1, e2, e3, e4, empty_exc]
  have hdrop : c8_file.drop 2 =
      ["MAP01 1 1 4 1234 1100 -1 2 50 50 10 10 50 10 10", "MAP02 bogus"] :=
    rfl
  refine ⟨?_, ?_, ?_⟩ <;>
    · rw [parse_stats, if_neg (by decide : ¬pyStrip (c8_file.headD "") ≠ "1"),
        hdrop]
      simp only [run_lines, h1, h2, hcm, finish_stats]
      simp
